import Mathlib

/-
  Verification of the Atticus demo client (willialso/atticusPro_liveDemo).

  The repository contains three near-duplicate browser-side controller
  classes:
    * `AttticusProfessionalDemo` v17.4 (src/static/script.js), the
      live-data-gated variant — modelled in namespace `V174`;
    * `AttticusProfessionalDemo` v17.2 (src/unnamed/part_000) — modelled
      in namespace `V172`;
    * `AtticusDemo` (src/unnamed/part_001) — modelled in namespace `AD`.

  JavaScript numbers are modelled as rationals (the concrete values in the
  claims have exact short decimal expansions, where IEEE doubles and
  rationals agree).  DOM writes are modelled as the text contents produced;
  network activity and alert dialogs are recorded in an explicit `Trace`.
  Backend responses are environment inputs, passed to each operation as a
  `FetchOutcome` value (`thrown` models a rejected fetch / JSON parse
  failure caught by the surrounding try/catch).
-/

namespace Atticus

/-- A JavaScript value as far as the client logic inspects it:
`typeof v === 'number'` checks, string display, and null/undefined
(conflated, as the client only ever tests them for truthiness). -/
inductive JSVal where
  | num (q : ℚ)
  | str (s : String)
  | null
deriving DecidableEq

/-- `typeof v === 'number'`. -/
def JSVal.isNumber : JSVal → Bool
  | .num _ => true
  | _ => false

/-- JavaScript `Math.round`: floor of x + 1/2 (halves round toward +inf).
Written on the numerator and denominator directly —
(2n + d) div 2d = ⌊n/d + 1/2⌋ — so it evaluates by kernel reduction
(see `jsRound_eq_floor`). -/
def jsRound (q : ℚ) : ℤ := (2 * q.num + q.den) / (2 * (q.den : ℤ))

/-- Group a reversed digit list into blocks of three with comma
separators (the en-US integer grouping of `toLocaleString`). -/
def commaGroupAux : List Char → List Char
  | a :: b :: c :: d :: rest => a :: b :: c :: ',' :: commaGroupAux (d :: rest)
  | l => l

/-- Decimal rendering of a natural number with thousands separators. -/
def groupedNatString (n : Nat) : String :=
  String.mk (commaGroupAux (Nat.repr n).data.reverse).reverse

/-- `(n).toLocaleString()` for an integer n (sign plus grouped digits). -/
def groupedIntString (n : ℤ) : String :=
  if n < 0 then "-" ++ groupedNatString n.natAbs else groupedNatString n.natAbs

/-- Plain JavaScript integer-to-string (template interpolation of an
integer value, no grouping). -/
def intStr (n : ℤ) : String :=
  if n < 0 then "-" ++ Nat.repr n.natAbs else Nat.repr n.natAbs

/-- Fractional decimal digits of n/d (0 ≤ n < d), most significant first,
stopping when the expansion terminates or after `fuel` digits.  The
concrete values reaching this function in the claims have terminating
expansions well inside the fuel bound. -/
def fracDigitsAux : ℕ → ℕ → ℕ → List Char
  | 0, _, _ => []
  | _ + 1, 0, _ => []
  | fuel + 1, n, d => Nat.digitChar (n * 10 / d) :: fracDigitsAux fuel (n * 10 % d) d

/-- JavaScript number-to-string for template interpolation (`${x}`):
sign, integer part, and the fractional digits without trailing zeros. -/
def jsNumToString (q : ℚ) : String :=
  let sign := if q < 0 then "-" else ""
  let n := q.num.natAbs
  let d := q.den
  let frac := fracDigitsAux 20 (n % d) d
  sign ++ Nat.repr (n / d) ++ (if frac.isEmpty then "" else "." ++ String.mk frac)

/-- `(q).toLocaleString()` under the en-US default: thousands grouping,
at most three fractional digits (rounded half away from zero), trailing
zeros dropped. -/
def jsToLocaleString (q : ℚ) : String :=
  let sign := if q < 0 then "-" else ""
  let scaled : ℤ := (2000 * |q.num| + q.den) / (2 * (q.den : ℤ))
  let ip := scaled / 1000
  let fp := (scaled % 1000).toNat
  let fracDigits := (Nat.repr fp).data
  let padded := List.replicate (3 - fracDigits.length) '0' ++ fracDigits
  let stripped := (padded.reverse.dropWhile (· = '0')).reverse
  sign ++ groupedNatString ip.toNat ++
    (if stripped.isEmpty then "" else "." ++ String.mk stripped)

/-- Text assigned by `element.textContent = v` (numbers are stringified,
null clears the node). -/
def textOf : JSVal → String
  | .num q => jsNumToString q
  | .str s => s
  | .null => ""

/-- Outcome of an awaited `fetch` + `response.json()`: either the parsed
body, or an exception caught by the caller's try/catch. -/
inductive FetchOutcome (α : Type) where
  | thrown
  | ok (body : α)
deriving DecidableEq

/-- Externally visible side effects of one operation: the endpoints it
requested and the `alert` dialogs it raised. -/
structure Trace where
  fetches : List String
  alerts : List String
deriving DecidableEq

/-- A hedge strategy object as echoed by the backend.  Pricing and copy
fields that are only interpolated into HTML are omitted; the fields the
client logic reads are kept. -/
structure Strategy where
  strategy_type : String
  strategy_name : String
  data_source : Option String
deriving DecidableEq

/-- The `analysis` object of an analyze-portfolio response.  Display-only
subobjects (profile, positions, risk metrics, scenarios) are not modelled;
`data_source` is the one field the v17.4 control flow reads. -/
structure AnalysisData where
  data_source : Option String
deriving DecidableEq

/-- The `analysis_context` object of a generate-strategies response. -/
structure CtxData where
  institution : String
  risk_tolerance : String
  position_size : ℚ
  data_source : Option String
deriving DecidableEq

/-- Body of an analyze-portfolio response. -/
structure AnalyzeResp where
  success : Bool
  analysis : Option AnalysisData
  error : Option String
  error_type : Option String
deriving DecidableEq

/-- Body of a generate-strategies response. -/
structure GenResp where
  success : Bool
  strategies : List Strategy
  analysis_context : Option CtxData
  error : Option String
  error_type : Option String
deriving DecidableEq

/-- Body of a select-strategy response. -/
structure SelectResp where
  success : Bool
  strategy : Option Strategy
  error : Option String
deriving DecidableEq

/-- `execution.execution_summary` of an execute-strategy response. -/
structure ExecSummary where
  strategy_name : String
  status : String
  contracts_filled : ℚ
deriving DecidableEq

/-- `execution` of an execute-strategy response. -/
structure Execution where
  execution_summary : ExecSummary
deriving DecidableEq

/-- Body of an execute-strategy response. -/
structure ExecResp where
  success : Bool
  execution : Option Execution
  error : Option String
deriving DecidableEq

/-- The custom-size form input, as read from the DOM (a string).  The JS
guard is `!size || size <= 0`: the empty string is falsy; a nonempty
string compares via ToNumber, and a NaN comparison is false. -/
inductive SizeInput where
  | empty
  | numeric (q : ℚ)
  | nonNumeric (s : String)
deriving DecidableEq

/-- The validation guard `!size || size <= 0` of analyzeCustomPosition. -/
def sizeInvalid : SizeInput → Bool
  | .empty => true
  | .numeric q => decide (q ≤ 0)
  | .nonNumeric _ => false

namespace V174

/-- Market-data payload of v17.4 (`status` gates liveness). -/
structure MarketPayload where
  btc_price : JSVal
  volatility : JSVal
  status : Option String
deriving DecidableEq

/-- Session state of `AttticusProfessionalDemo` v17.4
(src/static/script.js, constructor lines 3-12). -/
structure DemoState where
  currentStep : ℕ
  portfolioAnalysis : Option AnalysisData
  availableStrategies : Option (List Strategy)
  selectedStrategy : Option Strategy
  marketData : Option MarketPayload
  liveDataAvailable : Bool
deriving DecidableEq

/-- Constructor state. -/
def initState : DemoState :=
  { currentStep := 1
    portfolioAnalysis := none
    availableStrategies := none
    selectedStrategy := none
    marketData := none
    liveDataAvailable := false }

/-- `showStep(n)` (script.js 192-203): DOM class shuffling plus
`this.currentStep = stepNumber`. -/
def showStep (s : DemoState) (stepNumber : ℕ) : DemoState :=
  { s with currentStep := stepNumber }

/-- `formatCurrency` (script.js 112-115). -/
def formatCurrency : JSVal → JSVal
  | .num q => .str ("$" ++ groupedIntString (jsRound q))
  | v => v

/-- `formatBTC` (script.js 117-120). -/
def formatBTC : JSVal → JSVal
  | .num q => .str (intStr (jsRound q) ++ " BTC")
  | v => v

/-- `formatPercentage` (script.js 122-125). -/
def formatPercentage : JSVal → JSVal
  | .num q => .str (intStr (jsRound q) ++ "%")
  | v => v

/-- `updateMarketDisplay` (script.js 127-156): the pair of text contents
written to the btc-price and volatility nodes. -/
def updateMarketDisplay (data : MarketPayload) : String × String :=
  ( if data.btc_price.isNumber then textOf (formatCurrency data.btc_price)
    else textOf data.btc_price
  , if data.volatility.isNumber then textOf (formatPercentage data.volatility)
    else textOf data.volatility )

/-- The sentinel payload displayed on a live-data failure
(script.js 53-57). -/
def errorPayload : MarketPayload :=
  { btc_price := .str "LIVE DATA ERROR"
    volatility := .str "UNAVAILABLE"
    status := none }

/-- `loadMarketData` (script.js 34-59).  The environment supplies
`response.ok` and the parsed body; a non-ok response or a body without
`status === 'live'` throws into the catch block.  Returns the new state
and the market display texts written. -/
def loadMarketData (s : DemoState) (r : FetchOutcome (Bool × MarketPayload)) :
    DemoState × (String × String) :=
  match r with
  | .ok (respOk, data) =>
    if respOk = true ∧ data.status = some "live" then
      ({ s with marketData := some data, liveDataAvailable := true },
       updateMarketDisplay data)
    else
      ({ s with liveDataAvailable := false }, updateMarketDisplay errorPayload)
  | .thrown =>
      ({ s with liveDataAvailable := false }, updateMarketDisplay errorPayload)

/-- The error alert chosen at script.js 228-233 / 276-281. -/
def analysisErrorAlert (data : AnalyzeResp) : String :=
  let errorMsg := data.error.getD "Analysis failed"
  if data.error_type = some "LIVE_DATA_REQUIRED" then
    "LIVE DATA ERROR: " ++ errorMsg
  else
    "Analysis Error: " ++ errorMsg

/-- The blocking alert shown when live data is unavailable
(script.js 208, 254). -/
def liveDataRequiredAlert : String :=
  "LIVE DATA REQUIRED: Portfolio analysis requires live market data. Please wait for data connection or try again."

/-- `analyzePortfolio(portfolioType)` (script.js 205-241).  Guarded by
`liveDataAvailable`; advances to step 2 only when the response has
`success` and `analysis.data_source === 'LIVE_MARKET_DATA'`.  When
`success` is true but `analysis` is absent, reading `data_source` of
undefined throws into the catch block. -/
def analyzePortfolio (s : DemoState) (portfolioType : String)
    (r : FetchOutcome AnalyzeResp) : DemoState × Trace :=
  if s.liveDataAvailable = false then
    (s, { fetches := [], alerts := [liveDataRequiredAlert] })
  else
    match r with
    | .thrown =>
        (s, { fetches := ["/api/analyze-portfolio"]
              alerts := ["CRITICAL ERROR: Portfolio analysis failed. Live market data may be unavailable."] })
    | .ok data =>
      if data.success = true then
        match data.analysis with
        | none =>
            (s, { fetches := ["/api/analyze-portfolio"]
                  alerts := ["CRITICAL ERROR: Portfolio analysis failed. Live market data may be unavailable."] })
        | some an =>
          if an.data_source = some "LIVE_MARKET_DATA" then
            (showStep { s with portfolioAnalysis := some an } 2,
             { fetches := ["/api/analyze-portfolio"], alerts := [] })
          else
            (s, { fetches := ["/api/analyze-portfolio"]
                  alerts := [analysisErrorAlert data] })
      else
        (s, { fetches := ["/api/analyze-portfolio"]
              alerts := [analysisErrorAlert data] })

/-- `analyzeCustomPosition()` (script.js 243-289): size validation first,
then the live-data gate, then the same fetch/advance logic as
`analyzePortfolio`. -/
def analyzeCustomPosition (s : DemoState) (size : SizeInput) (ty : String)
    (r : FetchOutcome AnalyzeResp) : DemoState × Trace :=
  if sizeInvalid size = true then
    (s, { fetches := [], alerts := ["Please enter a valid BTC position size."] })
  else if s.liveDataAvailable = false then
    (s, { fetches := [], alerts := [liveDataRequiredAlert] })
  else
    match r with
    | .thrown =>
        (s, { fetches := ["/api/analyze-portfolio"]
              alerts := ["CRITICAL ERROR: Position analysis failed. Live market data may be unavailable."] })
    | .ok data =>
      if data.success = true then
        match data.analysis with
        | none =>
            (s, { fetches := ["/api/analyze-portfolio"]
                  alerts := ["CRITICAL ERROR: Position analysis failed. Live market data may be unavailable."] })
        | some an =>
          if an.data_source = some "LIVE_MARKET_DATA" then
            (showStep { s with portfolioAnalysis := some an } 2,
             { fetches := ["/api/analyze-portfolio"], alerts := [] })
          else
            (s, { fetches := ["/api/analyze-portfolio"]
                  alerts := [analysisErrorAlert data] })
      else
        (s, { fetches := ["/api/analyze-portfolio"]
              alerts := [analysisErrorAlert data] })

/-- The error alert chosen at script.js 402-407. -/
def strategyErrorAlert (data : GenResp) : String :=
  let errorMsg := data.error.getD "Strategy generation failed"
  if data.error_type = some "LIVE_DATA_REQUIRED" then
    "LIVE DATA ERROR: " ++ errorMsg
  else
    "Strategy Error: " ++ errorMsg

/-- `generateStrategies()` (script.js 386-415): advances to step 3 only
when `success` and `analysis_context.data_source === 'LIVE_MARKET_DATA'`;
an absent `analysis_context` with `success` true throws into the catch. -/
def generateStrategies (s : DemoState) (r : FetchOutcome GenResp) :
    DemoState × Trace :=
  match r with
  | .thrown =>
      (s, { fetches := ["/api/generate-strategies"]
            alerts := ["CRITICAL ERROR: Strategy generation failed. Live market data may be unavailable."] })
  | .ok data =>
    if data.success = true then
      match data.analysis_context with
      | none =>
          (s, { fetches := ["/api/generate-strategies"]
                alerts := ["CRITICAL ERROR: Strategy generation failed. Live market data may be unavailable."] })
      | some ctx =>
        if ctx.data_source = some "LIVE_MARKET_DATA" then
          (showStep { s with availableStrategies := some data.strategies } 3,
           { fetches := ["/api/generate-strategies"], alerts := [] })
        else
          (s, { fetches := ["/api/generate-strategies"]
                alerts := [strategyErrorAlert data] })
    else
      (s, { fetches := ["/api/generate-strategies"]
            alerts := [strategyErrorAlert data] })

/-- `selectStrategy(strategyType)` (script.js 485-512): on `success` it
stores the strategy object echoed by the server — with no check of its
`data_source` and no membership check against `availableStrategies` —
and schedules `executeStrategy` (modelled as a separate event). -/
def selectStrategy (s : DemoState) (strategyType : String)
    (r : FetchOutcome SelectResp) : DemoState × Trace :=
  match r with
  | .thrown =>
      (s, { fetches := ["/api/select-strategy"]
            alerts := ["CRITICAL ERROR: Strategy selection failed."] })
  | .ok data =>
    if data.success = true then
      ({ s with selectedStrategy := data.strategy },
       { fetches := ["/api/select-strategy"], alerts := [] })
    else
      (s, { fetches := ["/api/select-strategy"]
            alerts := ["Strategy Selection Error: " ++ data.error.getD "undefined"] })

/-- `executeStrategy()` (script.js 526-550): on `success` it renders the
results, advances to step 4 and re-polls platform exposure; an absent
`execution` object with `success` true makes the renderer throw before
`showStep(4)`. -/
def executeStrategy (s : DemoState) (r : FetchOutcome ExecResp) :
    DemoState × Trace :=
  match r with
  | .thrown =>
      (s, { fetches := ["/api/execute-strategy"]
            alerts := ["CRITICAL ERROR: Strategy execution failed."] })
  | .ok data =>
    if data.success = true then
      match data.execution with
      | none =>
          (s, { fetches := ["/api/execute-strategy"]
                alerts := ["CRITICAL ERROR: Strategy execution failed."] })
      | some _ =>
          (showStep s 4,
           { fetches := ["/api/execute-strategy", "/api/platform-exposure"]
             alerts := [] })
    else
      (s, { fetches := ["/api/execute-strategy"]
            alerts := ["Execution Error: " ++ data.error.getD "undefined"] })

/-- The contracts-filled line of `displayExecutionResults`
(script.js 575): Math.round of the fill, " BTC" suffix. -/
def contractsFilledText (e : Execution) : String :=
  intStr (jsRound e.execution_summary.contracts_filled) ++ " BTC"

/-- `resetDemo()` (script.js 644-664): resets the four workflow fields
and shows step 1; `marketData` and `liveDataAvailable` are not touched. -/
def resetDemo (s : DemoState) : DemoState :=
  showStep
    { s with
      currentStep := 1
      portfolioAnalysis := none
      availableStrategies := none
      selectedStrategy := none } 1

/-- A user- or timer-triggered event together with the backend response
it observed.  `selectStrategy`'s delayed auto-execution is the separate
`execute` event that follows it in a trace. -/
inductive Event where
  | poll (r : FetchOutcome (Bool × MarketPayload))
  | analyze (portfolioType : String) (r : FetchOutcome AnalyzeResp)
  | analyzeCustom (size : SizeInput) (ty : String) (r : FetchOutcome AnalyzeResp)
  | generate (r : FetchOutcome GenResp)
  | select (strategyType : String) (r : FetchOutcome SelectResp)
  | execute (r : FetchOutcome ExecResp)
  | reset
deriving DecidableEq

/-- State transition of one event (side effects dropped). -/
def applyEvent (s : DemoState) : Event → DemoState
  | .poll r => (loadMarketData s r).1
  | .analyze pt r => (analyzePortfolio s pt r).1
  | .analyzeCustom sz ty r => (analyzeCustomPosition s sz ty r).1
  | .generate r => (generateStrategies s r).1
  | .select ty r => (selectStrategy s ty r).1
  | .execute r => (executeStrategy s r).1
  | .reset => resetDemo s

/-- Run a sequence of events from a state. -/
def run (s : DemoState) (evs : List Event) : DemoState :=
  evs.foldl applyEvent s

/-- A state is reachable when some event sequence from the constructor
state produces it. -/
def Reachable (s : DemoState) : Prop :=
  ∃ evs, run initState evs = s

end V174

namespace V172

/-- Market-data payload of v17.2 (no liveness status field is read). -/
structure MarketPayload where
  btc_price : JSVal
  volatility : JSVal
deriving DecidableEq

/-- Session state of `AttticusProfessionalDemo` v17.2
(src/unnamed/part_000, constructor lines 3-11). -/
structure DemoState where
  currentStep : ℕ
  portfolioAnalysis : Option AnalysisData
  availableStrategies : Option (List Strategy)
  selectedStrategy : Option Strategy
  marketData : Option MarketPayload
deriving DecidableEq

/-- `showStep(n)` (part_000 109-122). -/
def showStep (s : DemoState) (stepNumber : ℕ) : DemoState :=
  { s with currentStep := stepNumber }

/-- `updateMarketDisplay` (part_000 58-73): raw `toLocaleString` for the
price, raw interpolation for the volatility. -/
def updateMarketDisplay (data : MarketPayload) : String × String :=
  ( match data.btc_price with
    | .num q => "$" ++ jsToLocaleString q
    | v => textOf v
  , match data.volatility with
    | .num q => jsNumToString q ++ "%"
    | v => textOf v )

/-- The sentinel payload displayed on a market-data failure
(part_000 50-54). -/
def errorPayload : MarketPayload :=
  { btc_price := .str "Error", volatility := .str "N/A" }

/-- `loadMarketData` (part_000 41-56): stores whatever body parses and
displays it; only a thrown fetch reaches the error display. -/
def loadMarketData (s : DemoState) (r : FetchOutcome MarketPayload) :
    DemoState × (String × String) :=
  match r with
  | .ok data => ({ s with marketData := some data }, updateMarketDisplay data)
  | .thrown => (s, updateMarketDisplay errorPayload)

/-- `analyzePortfolio(portfolioType)` (part_000 124-149): advances on
`success` alone.  When `success` is true but `analysis` is absent, the
assignment happens and the renderer then throws reading
`analysis.profile`, so `showStep(2)` is not reached. -/
def analyzePortfolio (s : DemoState) (portfolioType : String)
    (r : FetchOutcome AnalyzeResp) : DemoState × Trace :=
  match r with
  | .thrown =>
      (s, { fetches := ["/api/analyze-portfolio"]
            alerts := ["Error analyzing portfolio. Please try again."] })
  | .ok data =>
    if data.success = true then
      match data.analysis with
      | none =>
          ({ s with portfolioAnalysis := none },
           { fetches := ["/api/analyze-portfolio"]
             alerts := ["Error analyzing portfolio. Please try again."] })
      | some an =>
          (showStep { s with portfolioAnalysis := some an } 2,
           { fetches := ["/api/analyze-portfolio"], alerts := [] })
    else
      (s, { fetches := ["/api/analyze-portfolio"]
            alerts := ["Error analyzing portfolio: " ++ data.error.getD "undefined"] })

/-- `analyzeCustomPosition()` (part_000 151-186): the same size guard as
v17.4, then an ungated fetch. -/
def analyzeCustomPosition (s : DemoState) (size : SizeInput) (ty : String)
    (r : FetchOutcome AnalyzeResp) : DemoState × Trace :=
  if sizeInvalid size = true then
    (s, { fetches := [], alerts := ["Please enter a valid BTC position size."] })
  else
    match r with
    | .thrown =>
        (s, { fetches := ["/api/analyze-portfolio"]
              alerts := ["Error analyzing position. Please try again."] })
    | .ok data =>
      if data.success = true then
        match data.analysis with
        | none =>
            ({ s with portfolioAnalysis := none },
             { fetches := ["/api/analyze-portfolio"]
               alerts := ["Error analyzing position. Please try again."] })
        | some an =>
            (showStep { s with portfolioAnalysis := some an } 2,
             { fetches := ["/api/analyze-portfolio"], alerts := [] })
      else
        (s, { fetches := ["/api/analyze-portfolio"]
              alerts := ["Error analyzing position: " ++ data.error.getD "undefined"] })

/-- `generateStrategies()` (part_000 275-299): advances on `success`
alone; with `analysis_context` absent the renderer throws after the
`availableStrategies` assignment, before `showStep(3)`. -/
def generateStrategies (s : DemoState) (r : FetchOutcome GenResp) :
    DemoState × Trace :=
  match r with
  | .thrown =>
      (s, { fetches := ["/api/generate-strategies"]
            alerts := ["Error generating strategies. Please try again."] })
  | .ok data =>
    if data.success = true then
      match data.analysis_context with
      | none =>
          ({ s with availableStrategies := some data.strategies },
           { fetches := ["/api/generate-strategies"]
             alerts := ["Error generating strategies. Please try again."] })
      | some _ =>
          (showStep { s with availableStrategies := some data.strategies } 3,
           { fetches := ["/api/generate-strategies"], alerts := [] })
    else
      (s, { fetches := ["/api/generate-strategies"]
            alerts := ["Error generating strategies: " ++ data.error.getD "undefined"] })

/-- `selectStrategy(strategyType)` (part_000 362-390). -/
def selectStrategy (s : DemoState) (strategyType : String)
    (r : FetchOutcome SelectResp) : DemoState × Trace :=
  match r with
  | .thrown =>
      (s, { fetches := ["/api/select-strategy"]
            alerts := ["Error selecting strategy. Please try again."] })
  | .ok data =>
    if data.success = true then
      ({ s with selectedStrategy := data.strategy },
       { fetches := ["/api/select-strategy"], alerts := [] })
    else
      (s, { fetches := ["/api/select-strategy"]
            alerts := ["Error selecting strategy: " ++ data.error.getD "undefined"] })

/-- `executeStrategy()` (part_000 404-430). -/
def executeStrategy (s : DemoState) (r : FetchOutcome ExecResp) :
    DemoState × Trace :=
  match r with
  | .thrown =>
      (s, { fetches := ["/api/execute-strategy"]
            alerts := ["Error executing strategy. Please try again."] })
  | .ok data =>
    if data.success = true then
      match data.execution with
      | none =>
          (s, { fetches := ["/api/execute-strategy"]
                alerts := ["Error executing strategy. Please try again."] })
      | some _ =>
          (showStep s 4,
           { fetches := ["/api/execute-strategy", "/api/platform-exposure"]
             alerts := [] })
    else
      (s, { fetches := ["/api/execute-strategy"]
            alerts := ["Error executing strategy: " ++ data.error.getD "undefined"] })

/-- The contracts-filled line of `displayExecutionResults`
(part_000 449): the raw value interpolated, " BTC" suffix — no rounding
and no two-decimal formatting. -/
def contractsFilledText (e : Execution) : String :=
  jsNumToString e.execution_summary.contracts_filled ++ " BTC"

/-- `resetDemo()` (part_000 518-534): identical state effect to v17.4;
`marketData` is not touched. -/
def resetDemo (s : DemoState) : DemoState :=
  showStep
    { s with
      currentStep := 1
      portfolioAnalysis := none
      availableStrategies := none
      selectedStrategy := none } 1

end V172

namespace AD

/-- Session state of the `AtticusDemo` variant
(src/unnamed/part_001, constructor lines 3-11). -/
structure DemoState where
  currentStep : ℕ
  portfolio : Option String
  strategies : List Strategy
  customPositions : List (ℚ × String)
  selectedStrategy : Option Strategy
  executionData : Option Execution
deriving DecidableEq

/-- `resetDemo()` (part_001 589-618): clears every session field;
`strategies` and `customPositions` become empty arrays (not null). -/
def resetDemo (s : DemoState) : DemoState :=
  { s with
    currentStep := 1
    portfolio := none
    strategies := []
    customPositions := []
    selectedStrategy := none
    executionData := none }

end AD

end Atticus

namespace Atticus

/-- C1: from every prior state, `resetDemo()` returns the workflow to
step 1 and clears `portfolioAnalysis`, `availableStrategies` and
`selectedStrategy` — in v17.4 and v17.2 they become null; the
`AtticusDemo` variant likewise resets its analogous fields (its strategy
list becomes the empty array). -/
theorem c1_resetDemo_clears_session :
    ∀ (s : V174.DemoState) (t : V172.DemoState) (u : AD.DemoState),
    (V174.resetDemo s).currentStep = 1 ∧
    (V174.resetDemo s).portfolioAnalysis = none ∧
    (V174.resetDemo s).availableStrategies = none ∧
    (V174.resetDemo s).selectedStrategy = none ∧
    (V172.resetDemo t).currentStep = 1 ∧
    (V172.resetDemo t).portfolioAnalysis = none ∧
    (V172.resetDemo t).availableStrategies = none ∧
    (V172.resetDemo t).selectedStrategy = none ∧
    (AD.resetDemo u).currentStep = 1 ∧
    (AD.resetDemo u).portfolio = none ∧
    (AD.resetDemo u).strategies = [] ∧
    (AD.resetDemo u).selectedStrategy = none := by
  intro s t u
  exact ⟨rfl, rfl, rfl, rfl, rfl, rfl, rfl, rfl, rfl, rfl, rfl, rfl⟩

/-- The live poll payload of the C7 example scenario. -/
def c7Payload : V174.MarketPayload :=
  { btc_price := .num 65000, volatility := .num 62, status := some "live" }

/-- C7: a market-data poll carrying btc_price 65000 and volatility 62
displays the price as "$65,000" and the volatility as "62%", in the
v17.4 variant (where the poll must also report live status) and in the
v17.2 variant (which displays every parsed payload). -/
theorem c7_market_display_example :
    ∀ (s : V174.DemoState) (t : V172.DemoState),
    (V174.loadMarketData s (.ok (true, c7Payload))).2 = ("$65,000", "62%") ∧
    (V172.loadMarketData t (.ok { btc_price := .num 65000, volatility := .num 62 })).2
      = ("$65,000", "62%") := by
  intro s t
  constructor
  · simp only [V174.loadMarketData]
    rw [if_pos ⟨trivial, rfl⟩]
    show V174.updateMarketDisplay c7Payload = ("$65,000", "62%")
    decide
  · simp only [V172.loadMarketData]
    show V172.updateMarketDisplay _ = ("$65,000", "62%")
    decide

/-- The concrete execution object of the C8 example scenario
(`contracts_filled = 12.345`). -/
def c8Exec : Execution :=
  { execution_summary :=
    { strategy_name := "Protective Put", status := "filled"
      contracts_filled := mkRat 2469 200 } }

/-- C8 as claimed: the rounding variant shows "12 BTC" and the other
variant shows "12.35 BTC". -/
def c8ClaimProp : Prop :=
  V174.contractsFilledText c8Exec = "12 BTC" ∧
  V172.contractsFilledText c8Exec = "12.35 BTC"

/-- C8 counterexample: at contracts_filled = 12.345 the non-rounding
variant (v17.2) displays "12.345 BTC", not "12.35 BTC" — the claimed
two-decimal formatting does not exist. -/
theorem c8_counterexample : ¬ c8ClaimProp := by
  intro h
  exact absurd h.2 (by decide)

/-- C8 amended: with contracts_filled = 12.345 the v17.4 variant
displays "12 BTC" (Math.round) and the v17.2 variant interpolates the
raw value, displaying "12.345 BTC". -/
theorem c8_amended_contracts_display :
    V174.contractsFilledText c8Exec = "12 BTC" ∧
    V172.contractsFilledText c8Exec = "12.345 BTC" := by
  constructor <;> decide

/-- A failing outcome of the v17.4 analyze call as enumerated by the
spec: a thrown fetch, `success` false, or a response whose
`analysis.data_source` is not LIVE_MARKET_DATA. -/
def analyzeFailV174 : FetchOutcome AnalyzeResp → Prop
  | .thrown => True
  | .ok d => d.success = true →
      ∀ an, d.analysis = some an → an.data_source ≠ some "LIVE_MARKET_DATA"

/-- A failing outcome of the v17.2 analyze call: a thrown fetch or
`success` false. -/
def analyzeFailV172 : FetchOutcome AnalyzeResp → Prop
  | .thrown => True
  | .ok d => d.success = false

/-- C2: every failing outcome of `analyzePortfolio` leaves the whole
session state (in particular `currentStep` and `portfolioAnalysis`)
unchanged and surfaces at least one error alert — in v17.4 (where
failures include a missing live-data tag) and in v17.2. -/
theorem c2_analyzePortfolio_failure_preserves_state :
    (∀ (s : V174.DemoState) (pt : String) (r : FetchOutcome AnalyzeResp),
        analyzeFailV174 r →
        (V174.analyzePortfolio s pt r).1 = s ∧
        (V174.analyzePortfolio s pt r).2.alerts ≠ []) ∧
    (∀ (s : V172.DemoState) (pt : String) (r : FetchOutcome AnalyzeResp),
        analyzeFailV172 r →
        (V172.analyzePortfolio s pt r).1 = s ∧
        (V172.analyzePortfolio s pt r).2.alerts ≠ []) := by
  constructor
  · intro s pt r hf
    by_cases hl : s.liveDataAvailable = false
    · simp [V174.analyzePortfolio, hl]
    · cases r with
      | thrown => simp [V174.analyzePortfolio, hl]
      | ok d =>
        cases hsucc : d.success with
        | false => simp [V174.analyzePortfolio, hl, hsucc]
        | true =>
          cases han : d.analysis with
          | none => simp [V174.analyzePortfolio, hl, hsucc, han]
          | some an =>
            have htag : an.data_source ≠ some "LIVE_MARKET_DATA" :=
              hf hsucc an han
            simp [V174.analyzePortfolio, hl, hsucc, han, htag]
  · intro s pt r hf
    cases r with
    | thrown => simp [V172.analyzePortfolio]
    | ok d =>
      have hsucc : d.success = false := hf
      simp [V172.analyzePortfolio, hsucc]

/-- C2 witness: a thrown analyze fetch against the constructor state
changes nothing and raises an alert. -/
theorem c2_witness :
    (V174.analyzePortfolio V174.initState "conservative" .thrown).1
        = V174.initState ∧
    (V174.analyzePortfolio V174.initState "conservative" .thrown).2.alerts
        ≠ [] :=
  c2_analyzePortfolio_failure_preserves_state.1
    V174.initState "conservative" .thrown trivial

/-- C3: an empty or non-positive custom-size input makes
`analyzeCustomPosition` stop at the validation alert: no fetch is issued
and the session state is returned unchanged, in both variants. -/
theorem c3_invalid_custom_size_no_fetch :
    ∀ (size : SizeInput),
    (size = .empty ∨ ∃ q, size = .numeric q ∧ q ≤ 0) →
    ∀ (s : V174.DemoState) (t : V172.DemoState) (ty : String)
      (r r2 : FetchOutcome AnalyzeResp),
    V174.analyzeCustomPosition s size ty r
        = (s, { fetches := [], alerts := ["Please enter a valid BTC position size."] }) ∧
    V172.analyzeCustomPosition t size ty r2
        = (t, { fetches := [], alerts := ["Please enter a valid BTC position size."] }) := by
  intro size hsize s t ty r r2
  have hinv : sizeInvalid size = true := by
    rcases hsize with h | ⟨q, hq, hle⟩
    · rw [h]; rfl
    · rw [hq]; simpa [sizeInvalid] using hle
  constructor
  · simp [V174.analyzeCustomPosition, hinv]
  · simp [V172.analyzeCustomPosition, hinv]

/-- C3 witness: the empty input against the constructor states. -/
theorem c3_witness :
    V174.analyzeCustomPosition V174.initState .empty "long" .thrown
        = (V174.initState,
           { fetches := [], alerts := ["Please enter a valid BTC position size."] }) :=
  (c3_invalid_custom_size_no_fetch .empty (Or.inl rfl)
    V174.initState
    { currentStep := 1, portfolioAnalysis := none, availableStrategies := none
      selectedStrategy := none, marketData := none }
    "long" .thrown .thrown).1

/-- C4: in v17.4, whenever the last poll left `liveDataAvailable` false,
neither `analyzePortfolio` nor `analyzeCustomPosition` issues any network
request, and both leave the whole session state unchanged. -/
theorem c4_live_gate_blocks_analysis :
    ∀ (s : V174.DemoState), s.liveDataAvailable = false →
    (∀ (pt : String) (r : FetchOutcome AnalyzeResp),
        (V174.analyzePortfolio s pt r).1 = s ∧
        (V174.analyzePortfolio s pt r).2.fetches = []) ∧
    (∀ (size : SizeInput) (ty : String) (r : FetchOutcome AnalyzeResp),
        (V174.analyzeCustomPosition s size ty r).1 = s ∧
        (V174.analyzeCustomPosition s size ty r).2.fetches = []) := by
  intro s hl
  constructor
  · intro pt r
    simp [V174.analyzePortfolio, hl]
  · intro size ty r
    cases hinv : sizeInvalid size with
    | true => simp [V174.analyzeCustomPosition, hinv]
    | false => simp [V174.analyzeCustomPosition, hinv, hl]

/-- C4 witness: the constructor state (live data not yet available) with
a well-formed success response still refuses to fetch. -/
theorem c4_witness :
    V174.initState.liveDataAvailable = false ∧
    (V174.analyzePortfolio V174.initState "aggressive"
        (.ok { success := true
               analysis := some { data_source := some "LIVE_MARKET_DATA" }
               error := none, error_type := none })).2.fetches = [] :=
  ⟨rfl,
   ((c4_live_gate_blocks_analysis V174.initState rfl).1 "aggressive"
      (.ok { success := true
             analysis := some { data_source := some "LIVE_MARKET_DATA" }
             error := none, error_type := none })).2⟩

/-- C5 as claimed: in v17.4, every workflow-advancing call — including
strategy selection — refuses a response without the LIVE_MARKET_DATA tag:
the step does not advance and the session field is not set. -/
def c5ClaimProp : Prop :=
  (∀ (s : V174.DemoState) (pt : String) (d : AnalyzeResp),
      d.success = true →
      (∀ an, d.analysis = some an → an.data_source ≠ some "LIVE_MARKET_DATA") →
      (V174.analyzePortfolio s pt (.ok d)).1.currentStep = s.currentStep ∧
      (V174.analyzePortfolio s pt (.ok d)).1.portfolioAnalysis = s.portfolioAnalysis) ∧
  (∀ (s : V174.DemoState) (d : GenResp),
      d.success = true →
      (∀ ctx, d.analysis_context = some ctx → ctx.data_source ≠ some "LIVE_MARKET_DATA") →
      (V174.generateStrategies s (.ok d)).1.currentStep = s.currentStep ∧
      (V174.generateStrategies s (.ok d)).1.availableStrategies = s.availableStrategies) ∧
  (∀ (s : V174.DemoState) (ty : String) (d : SelectResp),
      d.success = true →
      (∀ st, d.strategy = some st → st.data_source ≠ some "LIVE_MARKET_DATA") →
      (V174.selectStrategy s ty (.ok d)).1.selectedStrategy = s.selectedStrategy)

/-- A select-strategy response with `success` true whose echoed strategy
carries no data_source tag. -/
def c5Resp : SelectResp :=
  { success := true
    strategy := some { strategy_type := "collar"
                       strategy_name := "Costless Collar"
                       data_source := none }
    error := none }

/-- C5 counterexample: `selectStrategy` checks only `success` — with a
tag-less echoed strategy it still sets `selectedStrategy` (here from the
constructor state, where it was null). -/
theorem c5_counterexample : ¬ c5ClaimProp := by
  intro h
  have hc := h.2.2 V174.initState "collar" c5Resp rfl
    (by intro st hst; cases hst; decide)
  exact absurd hc (by decide)

/-- C5 amended: the three analysis-stage calls (`analyzePortfolio`,
`analyzeCustomPosition`, `generateStrategies`) do require the
LIVE_MARKET_DATA tag in addition to `success` — without it the state is
returned unchanged — but `selectStrategy` stores the echoed strategy on
`success` alone, and `executeStrategy` advances to step 4 on `success`
alone, with no tag check. -/
theorem c5_amended_tag_checks :
    (∀ (s : V174.DemoState) (pt : String) (d : AnalyzeResp),
        d.success = true →
        (∀ an, d.analysis = some an → an.data_source ≠ some "LIVE_MARKET_DATA") →
        (V174.analyzePortfolio s pt (.ok d)).1 = s) ∧
    (∀ (s : V174.DemoState) (size : SizeInput) (ty : String) (d : AnalyzeResp),
        d.success = true →
        (∀ an, d.analysis = some an → an.data_source ≠ some "LIVE_MARKET_DATA") →
        (V174.analyzeCustomPosition s size ty (.ok d)).1 = s) ∧
    (∀ (s : V174.DemoState) (d : GenResp),
        d.success = true →
        (∀ ctx, d.analysis_context = some ctx → ctx.data_source ≠ some "LIVE_MARKET_DATA") →
        (V174.generateStrategies s (.ok d)).1 = s) ∧
    (∀ (s : V174.DemoState) (ty : String) (d : SelectResp),
        d.success = true →
        (V174.selectStrategy s ty (.ok d)).1
          = { s with selectedStrategy := d.strategy }) ∧
    (∀ (s : V174.DemoState) (d : ExecResp) (e : Execution),
        d.success = true → d.execution = some e →
        (V174.executeStrategy s (.ok d)).1.currentStep = 4) := by
  refine ⟨?_, ?_, ?_, ?_, ?_⟩
  · intro s pt d hsucc htag
    by_cases hl : s.liveDataAvailable = false
    · simp [V174.analyzePortfolio, hl]
    · cases han : d.analysis with
      | none => simp [V174.analyzePortfolio, hl, hsucc, han]
      | some an => simp [V174.analyzePortfolio, hl, hsucc, han, htag an han]
  · intro s size ty d hsucc htag
    cases hinv : sizeInvalid size with
    | true => simp [V174.analyzeCustomPosition, hinv]
    | false =>
      by_cases hl : s.liveDataAvailable = false
      · simp [V174.analyzeCustomPosition, hinv, hl]
      · cases han : d.analysis with
        | none => simp [V174.analyzeCustomPosition, hinv, hl, hsucc, han]
        | some an =>
            simp [V174.analyzeCustomPosition, hinv, hl, hsucc, han, htag an han]
  · intro s d hsucc htag
    cases hctx : d.analysis_context with
    | none => simp [V174.generateStrategies, hsucc, hctx]
    | some ctx => simp [V174.generateStrategies, hsucc, hctx, htag ctx hctx]
  · intro s ty d hsucc
    simp [V174.selectStrategy, hsucc]
  · intro s d e hsucc hexec
    simp [V174.executeStrategy, V174.showStep, hsucc, hexec]

/-- C5 amended witness: a tag-less successful select response against
the constructor state stores the echoed strategy. -/
theorem c5_amended_witness :
    c5Resp.success = true ∧
    (V174.selectStrategy V174.initState "collar" (.ok c5Resp)).1
      = { V174.initState with selectedStrategy := c5Resp.strategy } :=
  ⟨rfl, c5_amended_tag_checks.2.2.2.1 V174.initState "collar" c5Resp rfl⟩

/-- Bridge: `jsRound` is the floor of q + 1/2. -/
theorem jsRound_eq_floor (q : ℚ) : jsRound q = ⌊q + 1/2⌋ := by
  have hden : ((2 * q.den : ℕ) : ℚ) ≠ 0 := by
    push_cast
    have := q.den_pos
    positivity
  have hd : (q.den : ℚ) ≠ 0 := by
    exact_mod_cast q.den_nz
  have hnum : (q.num : ℚ) = q * (q.den : ℚ) :=
    (div_eq_iff hd).mp (Rat.num_div_den q)
  have hq : q + 1/2 = ((2 * q.num + q.den : ℤ) : ℚ) / ((2 * q.den : ℕ) : ℚ) := by
    rw [eq_div_iff hden]
    push_cast
    rw [hnum]
    ring
  rw [hq, Rat.floor_intCast_div_natCast]
  unfold jsRound
  norm_cast

/-- `jsRound` returns a nearest integer: it is within 1/2 of its
argument. -/
theorem jsRound_nearest (q : ℚ) : |q - (jsRound q : ℚ)| ≤ 1/2 := by
  rw [jsRound_eq_floor, abs_le]
  constructor
  · have h := Int.floor_le (q + 1/2)
    linarith
  · have h := Int.lt_floor_add_one (q + 1/2)
    linarith

/-- C10: the three formatting helpers return any non-number input
unchanged; a numeric input is replaced by a nearest integer (within 1/2,
JavaScript `Math.round`) rendered with the "$" prefix (with thousands
grouping), the " BTC" suffix, or the "%" suffix respectively. -/
theorem c10_format_helpers :
    (∀ v : JSVal, v.isNumber = false →
        V174.formatCurrency v = v ∧ V174.formatBTC v = v ∧
        V174.formatPercentage v = v) ∧
    (∀ q : ℚ, ∃ n : ℤ, |q - (n : ℚ)| ≤ 1/2 ∧
        V174.formatCurrency (.num q) = .str ("$" ++ groupedIntString n) ∧
        V174.formatBTC (.num q) = .str (intStr n ++ " BTC") ∧
        V174.formatPercentage (.num q) = .str (intStr n ++ "%")) := by
  constructor
  · intro v hv
    cases v with
    | num q => simp [JSVal.isNumber] at hv
    | str s => exact ⟨rfl, rfl, rfl⟩
    | null => exact ⟨rfl, rfl, rfl⟩
  · intro q
    exact ⟨jsRound q, jsRound_nearest q, rfl, rfl, rfl⟩

/-- C10 witness: a string value passes through all three helpers
unchanged. -/
theorem c10_witness :
    JSVal.isNumber (.str "N/A") = false ∧
    (V174.formatCurrency (.str "N/A") = .str "N/A" ∧
     V174.formatBTC (.str "N/A") = .str "N/A" ∧
     V174.formatPercentage (.str "N/A") = .str "N/A") :=
  ⟨rfl, c10_format_helpers.1 (.str "N/A") rfl⟩

/-- `loadMarketData` never touches `selectedStrategy`. -/
theorem loadMarketData_selectedStrategy (s : V174.DemoState)
    (r : FetchOutcome (Bool × V174.MarketPayload)) :
    (V174.loadMarketData s r).1.selectedStrategy = s.selectedStrategy := by
  cases r with
  | thrown => rfl
  | ok b =>
    obtain ⟨respOk, d⟩ := b
    simp only [V174.loadMarketData]
    split <;> rfl

/-- `analyzePortfolio` never touches `selectedStrategy`. -/
theorem analyzePortfolio_selectedStrategy (s : V174.DemoState)
    (pt : String) (r : FetchOutcome AnalyzeResp) :
    (V174.analyzePortfolio s pt r).1.selectedStrategy = s.selectedStrategy := by
  unfold V174.analyzePortfolio
  split
  · rfl
  · cases r with
    | thrown => rfl
    | ok d =>
      simp only
      split
      · cases d.analysis with
        | none => rfl
        | some an =>
          simp only
          split <;> rfl
      · rfl

/-- `analyzeCustomPosition` never touches `selectedStrategy`. -/
theorem analyzeCustomPosition_selectedStrategy (s : V174.DemoState)
    (size : SizeInput) (ty : String) (r : FetchOutcome AnalyzeResp) :
    (V174.analyzeCustomPosition s size ty r).1.selectedStrategy
      = s.selectedStrategy := by
  unfold V174.analyzeCustomPosition
  split
  · rfl
  · split
    · rfl
    · cases r with
      | thrown => rfl
      | ok d =>
        simp only
        split
        · cases d.analysis with
          | none => rfl
          | some an =>
            simp only
            split <;> rfl
        · rfl

/-- `generateStrategies` never touches `selectedStrategy`. -/
theorem generateStrategies_selectedStrategy (s : V174.DemoState)
    (r : FetchOutcome GenResp) :
    (V174.generateStrategies s r).1.selectedStrategy = s.selectedStrategy := by
  unfold V174.generateStrategies
  cases r with
  | thrown => rfl
  | ok d =>
    simp only
    split
    · cases d.analysis_context with
      | none => rfl
      | some ctx =>
        simp only
        split <;> rfl
    · rfl

/-- `executeStrategy` never touches `selectedStrategy`. -/
theorem executeStrategy_selectedStrategy (s : V174.DemoState)
    (r : FetchOutcome ExecResp) :
    (V174.executeStrategy s r).1.selectedStrategy = s.selectedStrategy := by
  unfold V174.executeStrategy
  cases r with
  | thrown => rfl
  | ok d =>
    simp only
    split
    · cases d.execution with
      | none => rfl
      | some e => rfl
    · rfl

/-- One event either leaves `selectedStrategy` alone, clears it (reset),
or — exactly for a successful select-strategy response — overwrites it
with the strategy the server echoed. -/
theorem applyEvent_selectedStrategy (s : V174.DemoState) (e : V174.Event) :
    (V174.applyEvent s e).selectedStrategy = s.selectedStrategy ∨
    (V174.applyEvent s e).selectedStrategy = none ∨
    ∃ ty r, e = V174.Event.select ty (.ok r) ∧ r.success = true ∧
      (V174.applyEvent s e).selectedStrategy = r.strategy := by
  cases e with
  | poll r => exact Or.inl (loadMarketData_selectedStrategy s r)
  | analyze pt r => exact Or.inl (analyzePortfolio_selectedStrategy s pt r)
  | analyzeCustom sz ty r =>
      exact Or.inl (analyzeCustomPosition_selectedStrategy s sz ty r)
  | generate r => exact Or.inl (generateStrategies_selectedStrategy s r)
  | execute r => exact Or.inl (executeStrategy_selectedStrategy s r)
  | reset => exact Or.inr (Or.inl rfl)
  | select ty r =>
    cases r with
    | thrown => exact Or.inl rfl
    | ok d =>
      cases hsucc : d.success with
      | false =>
          left
          simp [V174.applyEvent, V174.selectStrategy, hsucc]
      | true =>
          right; right
          refine ⟨ty, d, rfl, hsucc, ?_⟩
          simp [V174.applyEvent, V174.selectStrategy, hsucc]

/-- Every strategy ever held in `selectedStrategy` along a run was
introduced by a successful select-strategy response in that run. -/
theorem run_selectedStrategy_provenance (evs : List V174.Event) :
    ∀ (s : V174.DemoState) (st : Strategy),
    (V174.run s evs).selectedStrategy = some st →
    (∃ ty r, V174.Event.select ty (.ok r) ∈ evs ∧ r.success = true ∧
        r.strategy = some st) ∨
    s.selectedStrategy = some st := by
  induction evs with
  | nil => intro s st h; exact Or.inr h
  | cons e tl ih =>
    intro s st h
    have h' : (V174.run (V174.applyEvent s e) tl).selectedStrategy = some st := h
    rcases ih (V174.applyEvent s e) st h' with hfound | hcarried
    · obtain ⟨ty, r, hmem, hsucc, hst⟩ := hfound
      exact Or.inl ⟨ty, r, List.mem_cons_of_mem e hmem, hsucc, hst⟩
    · rcases applyEvent_selectedStrategy s e with heq | hnone | hsel
      · exact Or.inr (heq ▸ hcarried)
      · rw [hcarried] at hnone
        exact absurd hnone (by simp)
      · obtain ⟨ty, r, herule, hsucc, hst⟩ := hsel
        rw [hcarried] at hst
        exact Or.inl ⟨ty, r, herule ▸ List.mem_cons_self e tl, hsucc, hst.symm⟩

/-- C6 as claimed: in every reachable v17.4 state a non-null
`selectedStrategy` belongs to `availableStrategies`. -/
def c6ClaimProp : Prop :=
  ∀ s : V174.DemoState, V174.Reachable s →
    ∀ st, s.selectedStrategy = some st → st ∈ s.availableStrategies.getD []

/-- The strategy list generated by the backend in the C6 run. -/
def c6Generated : Strategy :=
  { strategy_type := "protective_put", strategy_name := "Protective Put"
    data_source := some "LIVE_MARKET_DATA" }

/-- The different strategy the select-strategy endpoint echoes in the
C6 run. -/
def c6Selected : Strategy :=
  { strategy_type := "collar", strategy_name := "Costless Collar"
    data_source := some "LIVE_MARKET_DATA" }

/-- The concrete C6 run: live poll, successful analysis, strategies
generated as [protective_put], then the select endpoint echoes a collar
strategy that is not in the generated list. -/
def c6Events : List V174.Event :=
  [ .poll (.ok (true, { btc_price := .num 65000, volatility := .num 62
                        status := some "live" })),
    .analyze "conservative"
      (.ok { success := true, analysis := some { data_source := some "LIVE_MARKET_DATA" }
             error := none, error_type := none }),
    .generate
      (.ok { success := true, strategies := [c6Generated]
             analysis_context := some { institution := "Hedge Fund Alpha"
                                        risk_tolerance := "moderate"
                                        position_size := 500
                                        data_source := some "LIVE_MARKET_DATA" }
             error := none, error_type := none }),
    .select "collar"
      (.ok { success := true, strategy := some c6Selected, error := none }) ]

/-- C6 counterexample: the client stores whatever strategy object the
select endpoint echoes, with no membership check, so the run above
reaches a state whose `selectedStrategy` (collar) is not an element of
`availableStrategies` ([protective_put]). -/
theorem c6_counterexample : ¬ c6ClaimProp := by
  intro h
  have hr : V174.Reachable (V174.run V174.initState c6Events) := ⟨c6Events, rfl⟩
  have hmem := h _ hr c6Selected (by decide)
  exact absurd hmem (by decide)

/-- C6 amended: whenever `selectedStrategy` is non-null in a reachable
state, it is the strategy object echoed by some successful
select-strategy response of the run — the client never checks it against
`availableStrategies`, so membership holds only if the backend echoes an
element of the generated list. -/
theorem c6_amended_selected_provenance :
    ∀ (evs : List V174.Event) (st : Strategy),
    (V174.run V174.initState evs).selectedStrategy = some st →
    ∃ ty r, V174.Event.select ty (.ok r) ∈ evs ∧ r.success = true ∧
      r.strategy = some st := by
  intro evs st h
  rcases run_selectedStrategy_provenance evs V174.initState st h with hfound | hinit
  · exact hfound
  · exact absurd hinit (by simp [V174.initState])

/-- C6 amended witness: in the concrete C6 run the selected collar
strategy is exactly the one echoed by the select-strategy response. -/
theorem c6_amended_witness :
    (V174.run V174.initState c6Events).selectedStrategy = some c6Selected ∧
    ∃ ty r, V174.Event.select ty (.ok r) ∈ c6Events ∧ r.success = true ∧
      r.strategy = some c6Selected :=
  ⟨by decide, c6_amended_selected_provenance c6Events c6Selected (by decide)⟩

/-- C9: `resetDemo()` does not touch the market snapshot — `marketData`
is unchanged in both variants, and the v17.4 `liveDataAvailable` flag is
unchanged as well. -/
theorem c9_resetDemo_preserves_marketData :
    ∀ (s : V174.DemoState) (t : V172.DemoState),
    (V174.resetDemo s).marketData = s.marketData ∧
    (V174.resetDemo s).liveDataAvailable = s.liveDataAvailable ∧
    (V172.resetDemo t).marketData = t.marketData := by
  intro s t
  exact ⟨rfl, rfl, rfl⟩

end Atticus

